/-
Verification of the URL-shortener cache / rate-limiter / redirect subsystem.

Shallow embedding of the Python sources:
  app/redis_cache.py        -- key-value and sorted-set adapter over Redis
  app/services/cache_service.py
  app/services/rate_limiter.py
  app/services/url_service.py
  app/models/url_models.py
  app/schemas/url_schemas.py

Conventions of the embedding:
  * machine state is explicit and passed through every operation;
  * a Python exception that escapes a service method is `Except.error`;
    the request session then rolls back, so an erroring operation
    commits no state change (app/database.py get_db commits only on
    a clean return and rolls back on any exception);
  * timestamps are integer seconds; a `Timestamp` carries the wall-clock
    seconds in `val` together with an `aware` flag mirroring whether the
    Python datetime has tzinfo attached.  For a naive timestamp,
    `replace(tzinfo=timezone.utc)` reinterprets the same wall-clock value
    as UTC, so normalization returns `val` unchanged in both cases;
  * JSON blobs in the cache are modelled by `CacheVal`: either the
    serialization of a link entry (`wellFormed`) or any other payload
    (`malformed`), which `json.loads` rejects.
-/
import Mathlib

namespace UrlShortener

/-- A wall-clock timestamp in seconds.  `aware` records whether the Python
datetime carries tzinfo; `val` is the wall-clock seconds value, which for an
aware datetime is already its UTC value. -/
structure Timestamp where
  val : Int
  aware : Bool
  deriving DecidableEq, Repr

/-- The denormalized cache projection of a link, the dict built at
url_service.py lines 72-76 and 103-107: original_url, is_active, expires_at. -/
structure LinkEntry where
  original_url : String
  is_active : Bool
  expires_at : Option Timestamp
  deriving DecidableEq, Repr

/-- A raw payload stored under a cache key: either `json.dumps` of a link
entry dict, or any other (malformed) string. -/
inductive CacheVal where
  | wellFormed (e : LinkEntry)
  | malformed (s : String)
  deriving DecidableEq, Repr

/-- Python truthiness of the payload string: `json.dumps` of the entry dict is
always a nonempty string, hence truthy; a malformed payload is truthy exactly
when it is nonempty. -/
def CacheVal.truthy : CacheVal → Bool
  | .wellFormed _ => true
  | .malformed s => s != ""

/-- `json.loads` applied to a cached payload: succeeds exactly on payloads
produced by `json.dumps` of a link entry dict, raises JSONDecodeError
otherwise. -/
def jsonLoads : CacheVal → Except Unit LinkEntry
  | .wellFormed e => .ok e
  | .malformed _ => .error ()

/-- Exceptions that can escape a service call. -/
inductive Err where
  | http404             -- HTTPException(404, URL not found)
  | http410Deactivated  -- HTTPException(410, URL has been deactivated)
  | http410Expired      -- HTTPException(410, URL has expired)
  | http400BadUrl       -- HTTPException(400, Invalid URL provided)
  | http400AliasTaken   -- HTTPException(400, Custom alias already exists)
  | http429             -- HTTPException(429, Rate limit exceeded)
  | nameError           -- Python NameError (update_url references undefined name db)
  | parseError          -- json.JSONDecodeError escaping get_cached_url
  | cacheDown           -- redis ConnectionError escaping a backend call
  | loopDiverged        -- fuel marker: the unbounded generation loop is still running
  deriving DecidableEq, Repr

/-- Lookup in an association list keyed by strings (the Redis keyspace). -/
def AListGet {α : Type} (l : List (String × α)) (k : String) : Option α :=
  (l.find? (fun p => p.1 == k)).map (fun p => p.2)

/-- Insert-or-overwrite in an association list keyed by strings. -/
def AListSet {α : Type} (l : List (String × α)) (k : String) (v : α) :
    List (String × α) :=
  (k, v) :: l.filter (fun p => p.1 != k)

/-- The Redis-visible state used by CacheService: the `url:*` string keyspace,
the `analytics:*` counter keyspace, and whether the backend is reachable
(`down = true` makes every awaited backend call raise). -/
structure CacheState where
  kv : List (String × CacheVal)
  counters : List (String × Int)
  down : Bool
  deriving DecidableEq, Repr

/-- `RedisCache.get_key` (redis_cache.py lines 16-18). -/
def get_key (c : CacheState) (k : String) : Except Err (Option CacheVal) :=
  if c.down then .error .cacheDown else .ok (AListGet c.kv k)

/-- `RedisCache.set_key` (redis_cache.py lines 12-14): the TTL argument does
not affect the stored value before expiry and is not modelled. -/
def set_key (c : CacheState) (k : String) (v : CacheVal) : Except Err CacheState :=
  if c.down then .error .cacheDown else .ok { c with kv := AListSet c.kv k v }

/-- `RedisCache.delete_key` (redis_cache.py lines 20-22). -/
def delete_key (c : CacheState) (k : String) : Except Err CacheState :=
  if c.down then .error .cacheDown
  else .ok { c with kv := c.kv.filter (fun p => p.1 != k) }

/-- `RedisCache.increment_key` (redis_cache.py lines 24-26): INCR semantics,
missing keys count from 0. -/
def increment_key (c : CacheState) (k : String) : Except Err (Int × CacheState) :=
  if c.down then .error .cacheDown
  else
    .ok ((AListGet c.counters k).getD 0 + 1,
      { c with counters := AListSet c.counters k ((AListGet c.counters k).getD 0 + 1) })

/-- `CacheService.generate_url_key`. -/
def generate_url_key (short_code : String) : String := "url:" ++ short_code

/-- `CacheService.generate_analytics_key`. -/
def generate_analytics_key (short_code : String) : String := "analytics:" ++ short_code

/-- `CacheService.generate_rate_limit_key`. -/
def generate_rate_limit_key (ip endpoint : String) : String :=
  "rate_limit:" ++ ip ++ ":" ++ endpoint

/-- `CacheService.cache_url` (cache_service.py lines 21-24).  The source calls
`cache.set_key(cache_key, json.dumps(url_data), expire=self.CACHE_TTL)`
WITHOUT `await`: the coroutine object is created and discarded, its body never
runs, so the write never reaches the backend and no exception can be raised.
The method therefore leaves the cache unchanged and always succeeds; it is
modelled as the identity on the cache state. -/
def cache_url (c : CacheState) (_short_code : String) (_url_data : LinkEntry) :
    CacheState := c

/-- What `cache_url` would do if line 24 of cache_service.py awaited the
`set_key` call: serialize the entry and store it under `url:<code>`. -/
def cache_url_awaited (c : CacheState) (short_code : String) (url_data : LinkEntry) :
    Except Err CacheState :=
  set_key c (generate_url_key short_code) (.wellFormed url_data)

/-- `CacheService.get_cached_url` (cache_service.py lines 26-32):
`cached = await cache.get_key(...)`; `if cached:` (falsy on a miss and on an
empty-string payload) `return json.loads(cached)`; else `return None`.
There is no try/except: a backend failure or a JSON parse failure
propagates to the caller. -/
def get_cached_url (c : CacheState) (short_code : String) :
    Except Err (Option LinkEntry) :=
  match get_key c (generate_url_key short_code) with
  | .error e => .error e
  | .ok none => .ok none
  | .ok (some v) =>
    if v.truthy then
      match jsonLoads v with
      | .ok e => .ok (some e)
      | .error _ => .error .parseError
    else .ok none

/-- `CacheService.delete_cached_url` (cache_service.py lines 34-37); no
try/except, a backend failure propagates. -/
def delete_cached_url (c : CacheState) (short_code : String) : Except Err CacheState :=
  delete_key c (generate_url_key short_code)

/-- `CacheService.increment_click_count` (cache_service.py lines 39-42); no
try/except, a backend failure propagates. -/
def increment_click_count (c : CacheState) (short_code : String) :
    Except Err (Int × CacheState) :=
  increment_key c (generate_analytics_key short_code)

/-! ## Rate limiter (app/services/rate_limiter.py) -/

/-- `RateLimiter` construction parameters (requests = L, window = W seconds). -/
structure RateLimiter where
  requests : Nat
  window : Int
  deriving DecidableEq, Repr

/-- The module-level `rate_limiter = RateLimiter()` instance: 100 requests
per 3600-second window. -/
def rate_limiter : RateLimiter := ⟨100, 3600⟩

/-- `RedisCache.zremrangebyscore` (redis_cache.py lines 32-34): Redis removes
every member whose score lies in the INCLUSIVE range [min_score, max_score].
The per-key sorted set is a finite set of integer scores, since the rate
limiter always uses `str(timestamp)` as the member for score `timestamp`. -/
def zremrangebyscore (s : Finset Int) (min_score max_score : Int) : Finset Int :=
  s.filter (fun x => ¬ (min_score ≤ x ∧ x ≤ max_score))

/-- The body of the `try:` block of `RateLimiter.check_rate_limit`
(rate_limiter.py lines 17-32), acting on the sorted set stored under
`rate_limit:<ip>:<endpoint>`.  `redisDown` true makes the first backend call
raise.  Returns the set state at the moment the block finished or raised,
together with the exception raised inside the block, if any:
trim `[0, now - window]`, count, raise HTTPException(429) when
`count >= requests` (skipping the `zadd`), otherwise `zadd {str(now): now}`
and refresh the key TTL. -/
def check_rate_limit_try (rl : RateLimiter) (now : Int) (s : Finset Int)
    (redisDown : Bool) : Finset Int × Option Err :=
  if redisDown then (s, some .cacheDown)
  else if rl.requests ≤ (zremrangebyscore s 0 (now - rl.window)).card then
    (zremrangebyscore s 0 (now - rl.window), some .http429)
  else (insert now (zremrangebyscore s 0 (now - rl.window)), none)

/-- `RateLimiter.check_rate_limit` (rate_limiter.py lines 11-37).  The
`except Exception` at line 34 catches EVERY exception raised inside the try
block -- including the `HTTPException(429)` the method itself raises at line
25, since fastapi HTTPException subclasses Exception -- prints a message and
falls through.  The method therefore always returns normally: the boolean
component, whether the caller proceeds, is always `true`. -/
def check_rate_limit (rl : RateLimiter) (now : Int) (s : Finset Int)
    (redisDown : Bool) : Finset Int × Bool :=
  match check_rate_limit_try rl now s redisDown with
  | (s1, none) => (s1, true)
  | (s1, some _) => (s1, true)

/-! ## Durable store (app/models/url_models.py) and service state -/

/-- A row of the `urls` table (url_models.py lines 10-20).  Column defaults:
`is_active = True`, `clicks = 0`. -/
structure URLRecord where
  id : Nat
  original_url : String
  short_code : String
  custom_alias : Option String
  expires_at : Option Timestamp
  is_active : Bool
  clicks : Nat
  deriving DecidableEq, Repr

/-- A row of the `clicks` table (url_models.py lines 33-41); the columns the
service writes (url_service.py lines 147-152): url_id, ip_address,
user_agent.  timestamp/country/referrer are server defaults or unset. -/
structure ClickRecord where
  url_id : Nat
  ip_address : String
  user_agent : Option String
  deriving DecidableEq, Repr

/-- The durable store: the two tables plus the id sequence. -/
structure DBState where
  urls : List URLRecord
  clicks : List ClickRecord
  next_id : Nat
  deriving DecidableEq, Repr

/-- Full system state: durable store, Redis cache, and the rate limiter
sorted sets keyed by `rate_limit:<ip>:<endpoint>`. -/
structure SysState where
  db : DBState
  cache : CacheState
  rate : List (String × Finset Int)
  deriving DecidableEq

/-- `URLCreate` (url_schemas.py lines 6-9).  `expiration_days` defaults to 30
when the field is omitted and may be null. -/
structure URLCreate where
  original_url : String
  custom_alias : Option String
  expiration_days : Option Nat
  deriving DecidableEq, Repr

/-- `URLUpdate` (url_schemas.py lines 21-23): only custom_alias and
expiration_days are accepted; there is no is_active field. -/
structure URLUpdate where
  custom_alias : Option String
  expiration_days : Option Nat
  deriving DecidableEq, Repr

/-- Python truthiness of an `Optional[str]`: None and the empty string are
falsy. -/
def optStrTruthy : Option String → Bool
  | none => false
  | some a => a != ""

/-- Python truthiness of an `Optional[int]`: None and 0 are falsy. -/
def optNatTruthy : Option Nat → Bool
  | none => false
  | some d => d != 0

/-- `URL.set_expiration` (url_models.py lines 27-30): `if days:` then
`expires_at = datetime.utcnow() + timedelta(days=days)`.  `datetime.utcnow()`
is NAIVE, so the stored timestamp has `aware = false`. -/
def set_expiration (u : URLRecord) (days : Option Nat) (now : Int) : URLRecord :=
  match days with
  | some d => if d != 0 then { u with expires_at := some ⟨now + (d : Int) * 86400, false⟩ } else u
  | none => u

/-- `expires_dt.replace(tzinfo=timezone.utc)` applied when `tzinfo is None`
(url_service.py lines 124-125): a naive wall-clock value is reinterpreted as
UTC, leaving the seconds value unchanged; an aware value already is its UTC
seconds value.  Either way the comparison uses `val`. -/
def normalize_utc (t : Timestamp) : Int := t.val

/-- `select(URL).where(URL.short_code == code)` followed by
`scalar_one_or_none()`: the row whose short_code matches. -/
def lookup_by_code (urls : List URLRecord) (code : String) : Option URLRecord :=
  urls.find? (fun u => u.short_code == code)

/-- `db_url.clicks += 1` applied to the ORM object returned by
`scalar_one_or_none()`: increment the clicks of the matching row. -/
def bump_clicks : List URLRecord → String → List URLRecord
  | [], _ => []
  | u :: rest, code =>
    if u.short_code == code then { u with clicks := u.clicks + 1 } :: rest
    else u :: bump_clicks rest code

/-- Writing back the mutated ORM object of the row with the given
short_code. -/
def replace_by_code : List URLRecord → String → URLRecord → List URLRecord
  | [], _, _ => []
  | u :: rest, code, v =>
    if u.short_code == code then v :: rest else u :: replace_by_code rest code v

/-- `URLService._track_click` (url_service.py lines 138-156): refetch the row
by short_code; if present, increment its clicks, insert one Click row with
the given ip and user_agent, and `await` the analytics counter increment.
The awaited increment is unguarded: if the backend raises, the exception
propagates, the request fails, and the session rolls back (no state
committed), hence the plain `.error`. -/
def track_click (s : SysState) (short_code ip : String) (ua : Option String) :
    Except Err SysState :=
  match lookup_by_code s.db.urls short_code with
  | none => .ok s
  | some u =>
    match increment_click_count s.cache short_code with
    | .error e => .error e
    | .ok (_, c1) =>
      .ok { s with
        db := { s.db with
          urls := bump_clicks s.db.urls short_code,
          clicks := s.db.clicks ++ [⟨u.id, ip, ua⟩] },
        cache := c1 }

/-- The straight-line tail of `URLService.get_original_url` (url_service.py
lines 109-136) after original_url / is_active / expires_at have been
resolved: `if not is_active:` raise 410 deactivated; if expires_at is set,
normalize it to UTC and raise 410 expired when `expires_dt < current_time`
(STRICT less-than, line 127); otherwise track the click and return the
original URL. -/
def validate_and_track (s : SysState) (original_url : String) (is_active : Bool)
    (expires_at : Option Timestamp) (short_code ip : String) (ua : Option String)
    (now : Int) : Except Err (String × SysState) :=
  if is_active then
    match expires_at with
    | some t =>
      if normalize_utc t < now then .error .http410Expired
      else
        match track_click s short_code ip ua with
        | .error e => .error e
        | .ok s1 => .ok (original_url, s1)
    | none =>
      match track_click s short_code ip ua with
      | .error e => .error e
      | .ok s1 => .ok (original_url, s1)
  else .error .http410Deactivated

/-- `URLService.get_original_url` (url_service.py lines 80-136): try the cache
first (a cache failure or parse failure propagates); on a miss fetch the row
by short_code, 404 when absent, then repopulate the cache (`cache_url`, whose
write never executes); finally validate and track.  The cached `expires_at`
isoformat string round-trips the timestamp value and its awareness, so the
cached entry carries `Option Timestamp` directly. -/
def get_original_url (s : SysState) (short_code ip : String) (ua : Option String)
    (now : Int) : Except Err (String × SysState) :=
  match get_cached_url s.cache short_code with
  | .error e => .error e
  | .ok (some e) =>
    validate_and_track s e.original_url e.is_active e.expires_at short_code ip ua now
  | .ok none =>
    match lookup_by_code s.db.urls short_code with
    | none => .error .http404
    | some u =>
      validate_and_track
        { s with cache := cache_url s.cache short_code ⟨u.original_url, u.is_active, u.expires_at⟩ }
        u.original_url u.is_active u.expires_at short_code ip ua now

/-- Truthiness of the SQLAlchemy `Result` object bound by
`existing = await self.db.execute(select(URL).where(...))` at url_service.py
line 60.  The loop tests `if not existing:` on the Result OBJECT itself --
not on `existing.scalar_one_or_none()` -- and `Result` defines neither
`__bool__` nor `__len__`, so `bool(existing)` is `True` regardless of the
rows the result wraps. -/
def result_obj_truthy (_rows : List URLRecord) : Bool := true

/-- The `while True:` generation loop of `URLService.create_short_url`
(url_service.py lines 58-63), with `gen` the stream of codes
`generate_short_code` would draw and `fuel` a bound on the number of
iterations observed.  `none` means the loop is still running after `fuel`
iterations; `some code` would be the code assigned at the `break`. -/
def generate_code_loop (gen : Nat → String) (db : DBState) : Nat → Option String
  | 0 => none
  | fuel + 1 =>
    let short_code := gen fuel
    if result_obj_truthy (db.urls.filter (fun u => u.short_code == short_code)) then
      generate_code_loop gen db fuel
    else some short_code

/-- The tail of `URLService.create_short_url` (url_service.py lines 47-78)
once a short code has been chosen: build the row (column defaults
`is_active = True`, `clicks = 0`), apply `set_expiration`, add and flush it,
then `cache_url` it (whose write never executes). -/
def persist_new_url (s : SysState) (url_data : URLCreate) (code : String)
    (now : Int) : Except Err (URLRecord × SysState) :=
  let r := set_expiration
    { id := s.db.next_id, original_url := url_data.original_url, short_code := code,
      custom_alias := url_data.custom_alias, expires_at := none, is_active := true,
      clicks := 0 }
    url_data.expiration_days now
  .ok (r, { s with
    db := { s.db with urls := s.db.urls ++ [r], next_id := s.db.next_id + 1 },
    cache := cache_url s.cache r.short_code ⟨r.original_url, r.is_active, r.expires_at⟩ })

/-- `URLService.create_short_url` (url_service.py lines 20-78).  `validU`
stands for the external `validators.url` predicate.  First the rate limiter
runs (it updates its sorted set but never raises, its except swallowing even
its own 429); then the URL is validated; then, with a truthy custom alias,
availability is checked against both short_code and custom_alias columns;
otherwise the unbounded generation loop runs (`Err.loopDiverged` marks fuel
exhaustion of the never-breaking loop). -/
def create_short_url (validU : String → Bool) (gen : Nat → String) (fuel : Nat)
    (s : SysState) (url_data : URLCreate) (ip : String) (now : Int) :
    Except Err (URLRecord × SysState) :=
  let key := generate_rate_limit_key ip "create_url"
  let sR : SysState := { s with
    rate := AListSet s.rate key
      (check_rate_limit rate_limiter now ((AListGet s.rate key).getD ∅) s.cache.down).1 }
  if validU url_data.original_url then
    match url_data.custom_alias with
    | some al =>
      if al != "" then
        if sR.db.urls.any (fun u => u.short_code == al || u.custom_alias == some al) then
          .error .http400AliasTaken
        else persist_new_url sR url_data al now
      else
        match generate_code_loop gen sR.db fuel with
        | some code => persist_new_url sR url_data code now
        | none => .error .loopDiverged
    | none =>
      match generate_code_loop gen sR.db fuel with
      | some code => persist_new_url sR url_data code now
      | none => .error .loopDiverged
  else .error .http400BadUrl

/-- `URLService.update_url` (url_service.py lines 158-191): 404 when the row
is absent.  With a truthy custom_alias the method executes
`result = await db.execute(...)` where the name `db` is UNDEFINED in that
scope (the session is `self.db`), so a NameError is raised before anything
else happens.  Otherwise a truthy expiration_days is applied, the cache entry
is deleted (awaited, unguarded: a backend failure propagates), and the row is
returned. -/
def update_url (s : SysState) (short_code : String) (upd : URLUpdate) (now : Int) :
    Except Err (URLRecord × SysState) :=
  match lookup_by_code s.db.urls short_code with
  | none => .error .http404
  | some u =>
    if optStrTruthy upd.custom_alias then .error .nameError
    else
      let u1 := if optNatTruthy upd.expiration_days then set_expiration u upd.expiration_days now else u
      match delete_cached_url s.cache short_code with
      | .error e => .error e
      | .ok c1 =>
        .ok (u1, { s with
          db := { s.db with urls := replace_by_code s.db.urls short_code u1 },
          cache := c1 })

/-- `URLService.delete_url` (url_service.py lines 193-204): 404 when absent,
otherwise delete the row and invalidate its cache entry (awaited, unguarded:
a backend failure propagates and the deletion rolls back). -/
def delete_url (s : SysState) (short_code : String) : Except Err SysState :=
  match lookup_by_code s.db.urls short_code with
  | none => .error .http404
  | some u =>
    match delete_cached_url s.cache short_code with
    | .error e => .error e
    | .ok c1 =>
      .ok { s with
        db := { s.db with urls := s.db.urls.filter (fun v => v.id != u.id) },
        cache := c1 }

/-! ## Reachable states of the service -/

/-- One observable transition of the service: a successful public operation
(create, redirect, update, delete), or the cache backend going down or coming
back up between requests.  A failed operation commits nothing (the session
rolls back), so only `.ok` results change state. -/
def Step (s s' : SysState) : Prop :=
  (∃ validU gen fuel d ip now r,
    create_short_url validU gen fuel s d ip now = .ok (r, s')) ∨
  (∃ code ip ua now url, get_original_url s code ip ua now = .ok (url, s')) ∨
  (∃ code upd now r, update_url s code upd now = .ok (r, s')) ∨
  (∃ code, delete_url s code = .ok s') ∨
  (∃ b, s' = { s with cache := { s.cache with down := b } })

/-- The state of a fresh deployment: empty tables, empty cache, empty rate
sets. -/
def init_state : SysState := ⟨⟨[], [], 1⟩, ⟨[], [], false⟩, []⟩

/-- States the service can actually be in, starting from a fresh deployment
and managed solely through the public operations. -/
inductive Reachable : SysState → Prop where
  | init : Reachable init_state
  | step {s s' : SysState} (h : Reachable s) (hs : Step s s') : Reachable s'

/-! ## Concrete states used in witnesses and counterexamples -/

/-- A store holding one active never-expiring link `abc` with 5 clicks. -/
def demo_state : SysState :=
  ⟨⟨[⟨1, "https://e.com", "abc", none, none, true, 5⟩], [], 2⟩, ⟨[], [], false⟩, []⟩

/-- Like `demo_state` but the link expires at wall-clock second 100 (aware),
with 0 clicks. -/
def expiry_state : SysState :=
  ⟨⟨[⟨1, "https://e.com", "abc", none, some ⟨100, true⟩, true, 0⟩], [], 2⟩,
   ⟨[], [], false⟩, []⟩

/-- Like `demo_state` but the cache backend is unreachable. -/
def down_state : SysState :=
  ⟨⟨[⟨1, "https://e.com", "abc", none, none, true, 5⟩], [], 2⟩, ⟨[], [], true⟩, []⟩

/-- A sample cached link entry. -/
def entry_ex : LinkEntry := ⟨"https://e.com", true, none⟩

/-- A cache whose `url:abc` key holds a nonempty payload that is not valid
JSON. -/
def malformed_cache : CacheState := ⟨[("url:abc", .malformed "\x7b")], [], false⟩

/-- A cache whose `url:ok` key holds the serialization of `entry_ex`. -/
def wf_cache : CacheState := ⟨[("url:ok", .wellFormed entry_ex)], [], false⟩

/-- The row committed by creating custom alias `promo1` with
expiration_days = 30 at time 0 on a fresh deployment. -/
def promo_rec : URLRecord :=
  ⟨1, "https://e.com", "promo1", some "promo1", some ⟨2592000, false⟩, true, 0⟩

/-- The system state after that one alias-creation from `init_state`
(ip 1.2.3.4, time 0): one row, an empty url cache (the populate write never
executes) and one rate-limiter entry. -/
def s1 : SysState :=
  ⟨⟨[promo_rec], [], 2⟩, ⟨[], [], false⟩,
   [("rate_limit:1.2.3.4:create_url", {0})]⟩

/-- `s1` after one successful redirect of `promo1` from ip 9.9.9.9 at time 0:
clicks bumped to 1, one Click row, the analytics counter at 1. -/
def s1_clicked : SysState :=
  ⟨⟨[⟨1, "https://e.com", "promo1", some "promo1", some ⟨2592000, false⟩, true, 1⟩],
    [⟨1, "9.9.9.9", some "UA"⟩], 2⟩,
   ⟨[], [("analytics:promo1", 1)], false⟩,
   [("rate_limit:1.2.3.4:create_url", {0})]⟩

/-- The all-links-active invariant of the store. -/
def AllActive (s : SysState) : Prop := ∀ u ∈ s.db.urls, u.is_active = true

/-! ## Helper lemmas -/

/-- Lookup after insert-or-overwrite at the same key. -/
theorem AListGet_set_self {α : Type} (l : List (String × α)) (k : String) (v : α) :
    AListGet (AListSet l k v) k = some v := by
  simp [AListGet, AListSet, List.find?]

/-- Lookup in a list from which the key has been filtered out. -/
theorem AListGet_filter_self {α : Type} (l : List (String × α)) (k : String) :
    AListGet (l.filter (fun p => p.1 != k)) k = none := by
  have hfind : List.find? (fun p => p.1 == k) (l.filter (fun p => p.1 != k)) = none := by
    rw [List.find?_eq_none]
    intro x hx
    have hx2 : (x.1 != k) = true := (List.mem_filter.mp hx).2
    simpa using hx2
  simp [AListGet, hfind]

/-- The generation loop of `create_short_url` never breaks: `bool(Result)` is
always `True`, so the `if not existing:` branch is never taken, for every
fuel bound, every code stream and every store. -/
theorem generate_code_loop_eq_none (gen : Nat → String) (db : DBState) :
    ∀ fuel, generate_code_loop gen db fuel = none := by
  intro fuel
  induction fuel with
  | zero => rfl
  | succ n ih => simpa [generate_code_loop, result_obj_truthy] using ih

/-- `set_expiration` only touches `expires_at`. -/
theorem set_expiration_is_active (u : URLRecord) (days : Option Nat) (now : Int) :
    (set_expiration u days now).is_active = u.is_active := by
  unfold set_expiration
  cases days with
  | none => rfl
  | some d =>
    by_cases h : d = 0
    · simp [h]
    · simp [h]

/-- Click bumping finds the bumped row. -/
theorem lookup_bump_clicks (l : List URLRecord) (code : String) :
    lookup_by_code (bump_clicks l code) code
      = (lookup_by_code l code).map (fun u => { u with clicks := u.clicks + 1 }) := by
  induction l with
  | nil => rfl
  | cons u rest ih =>
    cases hbe : u.short_code == code with
    | true => simp [bump_clicks, lookup_by_code, List.find?, hbe]
    | false => simpa [bump_clicks, lookup_by_code, List.find?, hbe] using ih

/-- Click bumping preserves the all-active invariant. -/
theorem bump_clicks_all_active (l : List URLRecord) (code : String)
    (h : ∀ u ∈ l, u.is_active = true) :
    ∀ u ∈ bump_clicks l code, u.is_active = true := by
  induction l with
  | nil => intro u hu; cases hu
  | cons v rest ih =>
    intro u hu
    by_cases hv : v.short_code = code
    · simp [bump_clicks, hv] at hu
      rcases hu with h1 | h1
      · subst h1; exact h v (by simp)
      · exact h u (by simp [h1])
    · simp [bump_clicks, hv] at hu
      rcases hu with h1 | h1
      · subst h1; exact h u (by simp)
      · exact ih (fun w hw => h w (by simp [hw])) u h1

/-- Row replacement preserves the all-active invariant when the new row is
active. -/
theorem replace_by_code_all_active (l : List URLRecord) (code : String) (v : URLRecord)
    (h : ∀ u ∈ l, u.is_active = true) (hv : v.is_active = true) :
    ∀ u ∈ replace_by_code l code v, u.is_active = true := by
  induction l with
  | nil => intro u hu; cases hu
  | cons w rest ih =>
    intro u hu
    by_cases hw : w.short_code = code
    · simp [replace_by_code, hw] at hu
      rcases hu with h1 | h1
      · subst h1; exact hv
      · exact h u (by simp [h1])
    · simp [replace_by_code, hw] at hu
      rcases hu with h1 | h1
      · subst h1; exact h u (by simp)
      · exact ih (fun z hz => h z (by simp [hz])) u h1

/-- With the backend up, `_track_click` cannot raise. -/
theorem track_click_ok_of_up (s : SysState) (code ip : String) (ua : Option String)
    (hdown : s.cache.down = false) :
    ∃ s1, track_click s code ip ua = .ok s1 := by
  unfold track_click increment_click_count increment_key
  cases lookup_by_code s.db.urls code <;> simp [hdown]

/-- The intended write of `cache_url` (with the missing `await` restored)
round-trips: reading the key back yields the entry just cached. -/
theorem cache_url_awaited_roundtrip (c : CacheState) (code : String) (e : LinkEntry)
    (c1 : CacheState) (hset : cache_url_awaited c code e = .ok c1) :
    get_cached_url c1 code = .ok (some e) := by
  unfold cache_url_awaited set_key at hset
  cases hdown : c.down with
  | true => rw [hdown] at hset; simp at hset
  | false =>
    rw [hdown] at hset
    simp only [Bool.false_eq_true, if_false, Except.ok.injEq] at hset
    subst hset
    simp [get_cached_url, get_key, AListGet_set_self, CacheVal.truthy, jsonLoads]

/-- Exact result of `_track_click` when the row is present and the backend is
up. -/
theorem track_click_eq_of_found (s : SysState) (code ip : String) (ua : Option String)
    (u : URLRecord) (hl : lookup_by_code s.db.urls code = some u)
    (hdown : s.cache.down = false) :
    track_click s code ip ua = .ok
      { s with
        db := { s.db with
          urls := bump_clicks s.db.urls code,
          clicks := s.db.clicks ++ [⟨u.id, ip, ua⟩] },
        cache := { s.cache with
          counters := AListSet s.cache.counters (generate_analytics_key code)
            ((AListGet s.cache.counters (generate_analytics_key code)).getD 0 + 1) } } := by
  unfold track_click increment_click_count increment_key
  rw [hl]
  simp [hdown]

/-- Success shape of a redirect from a state whose url-cache keyspace is
empty: the row was resolved from the store and was active, exactly one Click
row carrying the given ip and user agent was appended, the clicks of the
resolved row were bumped, and the url cache was not touched. -/
theorem get_original_url_ok_shape (s : SysState) (code ip : String) (ua : Option String)
    (now : Int) (url : String) (s' : SysState)
    (hkv : s.cache.kv = [])
    (h : get_original_url s code ip ua now = .ok (url, s')) :
    ∃ u, lookup_by_code s.db.urls code = some u ∧ u.is_active = true ∧
      url = u.original_url ∧
      s'.db.urls = bump_clicks s.db.urls code ∧
      s'.db.clicks = s.db.clicks ++ [⟨u.id, ip, ua⟩] ∧
      s'.cache.kv = s.cache.kv := by
  cases hdown : s.cache.down with
  | true => simp [get_original_url, get_cached_url, get_key, hdown] at h
  | false =>
    have hc : get_cached_url s.cache code = .ok none := by
      simp [get_cached_url, get_key, hdown, hkv, AListGet]
    simp only [get_original_url, hc] at h
    cases hl : lookup_by_code s.db.urls code with
    | none => simp only [hl] at h; simp at h
    | some u =>
      simp only [hl] at h
      have heta : ({ s with
          cache := cache_url s.cache code ⟨u.original_url, u.is_active, u.expires_at⟩ } : SysState)
          = s := rfl
      rw [heta] at h
      unfold validate_and_track at h
      cases hact : u.is_active with
      | false => simp only [hact] at h; simp at h
      | true =>
        simp only [hact, if_true] at h
        have htc := track_click_eq_of_found s code ip ua u hl hdown
        cases hexp : u.expires_at with
        | none =>
          simp only [hexp, htc] at h
          simp only [Except.ok.injEq, Prod.mk.injEq] at h
          obtain ⟨h1, h2⟩ := h
          subst h2
          exact ⟨u, rfl, hact, h1.symm, rfl, rfl, rfl⟩
        | some t =>
          simp only [hexp] at h
          by_cases hlt : normalize_utc t < now
          · rw [if_pos hlt] at h; simp at h
          · rw [if_neg hlt] at h
            simp only [htc, Except.ok.injEq, Prod.mk.injEq] at h
            obtain ⟨h1, h2⟩ := h
            subst h2
            exact ⟨u, rfl, hact, h1.symm, rfl, rfl, rfl⟩

/-- Success shape of the commit tail of creation: the new row is active and
is appended, the cache is untouched (the populate write never executes), no
click rows are added. -/
theorem persist_new_url_shape (s : SysState) (d : URLCreate) (code : String) (now : Int)
    (r : URLRecord) (s' : SysState)
    (h : persist_new_url s d code now = .ok (r, s')) :
    r.is_active = true ∧ s'.db.urls = s.db.urls ++ [r] ∧ s'.cache = s.cache ∧
    s'.db.clicks = s.db.clicks := by
  simp only [persist_new_url, Except.ok.injEq, Prod.mk.injEq] at h
  obtain ⟨h1, h2⟩ := h
  subst h2
  refine ⟨?_, by rw [h1], rfl, rfl⟩
  rw [← h1, set_expiration_is_active]

/-- Success shape of `update_url`: the target row existed, the request had no
truthy alias (a truthy alias raises NameError), the written row has the same
active flag, and the url-cache key was deleted. -/
theorem update_ok_shape (s : SysState) (code : String) (upd : URLUpdate) (now : Int)
    (u1 : URLRecord) (s' : SysState)
    (h : update_url s code upd now = .ok (u1, s')) :
    ∃ u, lookup_by_code s.db.urls code = some u ∧
      u1.is_active = u.is_active ∧
      s'.db.urls = replace_by_code s.db.urls code u1 ∧
      s'.cache.kv = s.cache.kv.filter (fun p => p.1 != generate_url_key code) ∧
      s'.db.clicks = s.db.clicks := by
  simp only [update_url] at h
  cases hl : lookup_by_code s.db.urls code with
  | none => simp only [hl] at h; simp at h
  | some u =>
    simp only [hl] at h
    cases ha : optStrTruthy upd.custom_alias with
    | true => simp only [ha] at h; simp at h
    | false =>
      simp only [ha, Bool.false_eq_true, if_false] at h
      unfold delete_cached_url delete_key at h
      cases hdown : s.cache.down with
      | true => simp only [hdown] at h; simp at h
      | false =>
        simp only [hdown, Bool.false_eq_true, if_false, Except.ok.injEq, Prod.mk.injEq] at h
        obtain ⟨h1, h2⟩ := h
        subst h2
        refine ⟨u, rfl, ?_, by rw [h1], rfl, rfl⟩
        rw [← h1]
        cases hd : optNatTruthy upd.expiration_days with
        | true => simp [hd, set_expiration_is_active]
        | false => simp [hd]

/-- Success shape of `delete_url`: the target row existed, its row was
removed, and the url-cache key was deleted. -/
theorem delete_ok_shape (s : SysState) (code : String) (s' : SysState)
    (h : delete_url s code = .ok s') :
    ∃ u, lookup_by_code s.db.urls code = some u ∧
      s'.db.urls = s.db.urls.filter (fun v => v.id != u.id) ∧
      s'.cache.kv = s.cache.kv.filter (fun p => p.1 != generate_url_key code) := by
  simp only [delete_url] at h
  cases hl : lookup_by_code s.db.urls code with
  | none => simp only [hl] at h; simp at h
  | some u =>
    simp only [hl] at h
    unfold delete_cached_url delete_key at h
    cases hdown : s.cache.down with
    | true => simp only [hdown] at h; simp at h
    | false =>
      simp only [hdown, Bool.false_eq_true, if_false, Except.ok.injEq] at h
      subst h
      exact ⟨u, rfl, rfl, rfl⟩

/-- Success shape of `create_short_url`: because the generation loop never
breaks, a creation can only succeed through the custom-alias path; either way
the committed row is active, appended to the table, and the cache is
untouched. -/
theorem create_ok_shape (validU : String → Bool) (gen : Nat → String) (fuel : Nat)
    (s : SysState) (d : URLCreate) (ip : String) (now : Int) (r : URLRecord) (s' : SysState)
    (h : create_short_url validU gen fuel s d ip now = .ok (r, s')) :
    r.is_active = true ∧ s'.db.urls = s.db.urls ++ [r] ∧ s'.cache = s.cache ∧
    s'.db.clicks = s.db.clicks := by
  simp only [create_short_url] at h
  cases hv : validU d.original_url with
  | false => rw [hv] at h; simp at h
  | true =>
    rw [hv] at h
    simp only [if_true] at h
    cases hca : d.custom_alias with
    | none =>
      simp only [hca] at h
      rw [generate_code_loop_eq_none] at h
      simp at h
    | some al =>
      simp only [hca] at h
      cases hne : al != "" with
      | false =>
        simp only [hne, Bool.false_eq_true, if_false] at h
        rw [generate_code_loop_eq_none] at h
        simp at h
      | true =>
        simp only [hne, if_true] at h
        cases hcol : s.db.urls.any (fun u => u.short_code == al || u.custom_alias == some al) with
        | true => simp only [hcol] at h; simp at h
        | false =>
          simp only [hcol, Bool.false_eq_true, if_false] at h
          have hs := persist_new_url_shape _ d al now r s' h
          exact hs

/-- A row found by short code is a row of the table. -/
theorem lookup_by_code_mem (l : List URLRecord) (code : String) (u : URLRecord)
    (h : lookup_by_code l code = some u) : u ∈ l :=
  List.mem_of_find?_eq_some h

/-- Every transition preserves the invariant pair: all rows active, and the
url-cache keyspace empty (it is never written, since the populate write of
`cache_url` never executes and the only other touch is deletion). -/
theorem step_preserves_inv {s s' : SysState} (hs : Step s s')
    (h1 : AllActive s) (h2 : s.cache.kv = []) :
    AllActive s' ∧ s'.cache.kv = [] := by
  rcases hs with ⟨validU, gen, fuel, d, ip, now, r, h⟩ | ⟨code, ip, ua, now, url, h⟩ |
    ⟨code, upd, now, r, h⟩ | ⟨code, h⟩ | ⟨b, h⟩
  · obtain ⟨hr, hurls, hcache, -⟩ := create_ok_shape validU gen fuel s d ip now r s' h
    constructor
    · intro u hu
      rw [hurls] at hu
      rcases List.mem_append.mp hu with hm | hm
      · exact h1 u hm
      · rw [List.mem_singleton.mp hm]; exact hr
    · rw [hcache]; exact h2
  · obtain ⟨u, -, -, -, hurls, -, hkv⟩ :=
      get_original_url_ok_shape s code ip ua now url s' h2 h
    exact ⟨fun v hv => bump_clicks_all_active s.db.urls code h1 v (hurls ▸ hv),
      by rw [hkv]; exact h2⟩
  · obtain ⟨u, hl, hact, hurls, hkv, -⟩ := update_ok_shape s code upd now r s' h
    have hu : u.is_active = true := h1 u (lookup_by_code_mem s.db.urls code u hl)
    constructor
    · intro v hv
      rw [hurls] at hv
      exact replace_by_code_all_active s.db.urls code r h1 (hact.trans hu) v hv
    · rw [hkv, h2]; rfl
  · obtain ⟨u, -, hurls, hkv⟩ := delete_ok_shape s code s' h
    constructor
    · intro v hv
      rw [hurls] at hv
      exact h1 v (List.mem_filter.mp hv).1
    · rw [hkv, h2]; rfl
  · subst h; exact ⟨h1, h2⟩

/-- The invariant pair holds in every reachable state. -/
theorem reachable_inv (s : SysState) (h : Reachable s) :
    AllActive s ∧ s.cache.kv = [] := by
  induction h with
  | init => exact ⟨fun u hu => absurd hu (List.not_mem_nil u), rfl⟩
  | step h hs ih => exact step_preserves_inv hs ih.1 ih.2

/-- `s1` is reachable: one alias-creation from a fresh deployment. -/
theorem reachable_s1 : Reachable s1 :=
  Reachable.step Reachable.init
    (Or.inl ⟨fun _ => true, fun _ => "x", 0,
      ⟨"https://e.com", some "promo1", some 30⟩, "1.2.3.4", 0, promo_rec, rfl⟩)

/-! ## Claim theorems -/

/-- Claim C1 (code bug evidence).  When, after trimming, the recorded count
reaches the limit, the try-block of `check_rate_limit` does raise the 429 and
skips the `zadd` -- but the blanket `except Exception` catches that very
exception, so the method returns normally and the request is ALLOWED, not
rejected: the caller-visible outcome (second component) is `true`, with the
set left at its trimmed value (no member added). -/
theorem rate_limiter_swallows_own_429 (rl : RateLimiter) (now : Int) (s : Finset Int)
    (h : rl.requests ≤ (zremrangebyscore s 0 (now - rl.window)).card) :
    check_rate_limit_try rl now s false
      = (zremrangebyscore s 0 (now - rl.window), some Err.http429) ∧
    check_rate_limit rl now s false
      = (zremrangebyscore s 0 (now - rl.window), true) := by
  have h1 : check_rate_limit_try rl now s false
      = (zremrangebyscore s 0 (now - rl.window), some Err.http429) := by
    simp [check_rate_limit_try, h]
  exact ⟨h1, by simp [check_rate_limit, h1]⟩

/-- Witness for C1: a limiter with L = 1 and one recorded request in the
window; the check raises the 429 internally yet allows the request. -/
theorem rate_limiter_swallows_own_429_witness :
    (⟨1, 3600⟩ : RateLimiter).requests
      ≤ (zremrangebyscore {3600} 0 (3600 - 3600)).card ∧
    (check_rate_limit_try ⟨1, 3600⟩ 3600 {3600} false
      = (zremrangebyscore {3600} 0 (3600 - 3600), some Err.http429) ∧
     check_rate_limit ⟨1, 3600⟩ 3600 {3600} false
      = (zremrangebyscore {3600} 0 (3600 - 3600), true)) :=
  ⟨by decide, rate_limiter_swallows_own_429 ⟨1, 3600⟩ 3600 {3600} (by decide)⟩

/-- Claim C2 (code bug evidence).  Because the `set_key` coroutine of
`cache_url` is never awaited, caching an entry writes nothing: starting from
an empty cache, `cache_url` then `get_cached_url` on the same code returns
absent, not the cached entry. -/
theorem cache_roundtrip_drops_entry (short_code : String) (e : LinkEntry) :
    cache_url ⟨[], [], false⟩ short_code e = ⟨[], [], false⟩ ∧
    get_cached_url (cache_url ⟨[], [], false⟩ short_code e) short_code = .ok none :=
  ⟨rfl, rfl⟩

/-- Claim C3 (code bug evidence).  The generation loop tests the truthiness
of the SQLAlchemy Result object, which is always `True`, so for every fuel
bound the loop is still running (`none`), and a creation request without a
custom alias can never return successfully. -/
theorem create_without_alias_never_completes (validU : String → Bool) (gen : Nat → String)
    (fuel : Nat) (s : SysState) (d : URLCreate) (ip : String) (now : Int)
    (h : d.custom_alias = none) :
    (create_short_url validU gen fuel s d ip now).isOk = false ∧
    generate_code_loop gen s.db fuel = none := by
  refine ⟨?_, generate_code_loop_eq_none gen s.db fuel⟩
  simp only [create_short_url, h]
  cases hv : validU d.original_url with
  | false => simp [hv, Except.isOk, Except.toBool]
  | true => simp [hv, generate_code_loop_eq_none, Except.isOk, Except.toBool]

/-- Witness for C3: a concrete alias-free creation request on a fresh
deployment never completes, for any observed number of loop iterations. -/
theorem create_without_alias_never_completes_witness :
    (URLCreate.mk "https://e.com" none (some 30)).custom_alias = none ∧
    ((create_short_url (fun _ => true) (fun _ => "abc123") 5 init_state
        ⟨"https://e.com", none, some 30⟩ "1.2.3.4" 0).isOk = false ∧
     generate_code_loop (fun _ => "abc123") init_state.db 5 = none) :=
  ⟨rfl, create_without_alias_never_completes (fun _ => true) (fun _ => "abc123") 5
      init_state ⟨"https://e.com", none, some 30⟩ "1.2.3.4" 0 rfl⟩

/-- Claim C4 (code bug evidence).  An update that carries a truthy custom
alias reaches `await db.execute(...)` where `db` is undefined, so the method
raises NameError instead of checking alias uniqueness. -/
theorem update_with_alias_name_error (s : SysState) (code : String) (upd : URLUpdate)
    (now : Int) (u : URLRecord)
    (hu : lookup_by_code s.db.urls code = some u)
    (ha : optStrTruthy upd.custom_alias = true) :
    update_url s code upd now = .error Err.nameError := by
  simp only [update_url, hu, ha, if_true]

/-- Witness for C4: updating the existing link `abc` with alias `promo1`
raises NameError. -/
theorem update_with_alias_name_error_witness :
    lookup_by_code demo_state.db.urls "abc"
      = some ⟨1, "https://e.com", "abc", none, none, true, 5⟩ ∧
    optStrTruthy (some "promo1") = true ∧
    update_url demo_state "abc" ⟨some "promo1", none⟩ 0 = .error Err.nameError :=
  ⟨rfl, rfl, update_with_alias_name_error demo_state "abc" ⟨some "promo1", none⟩ 0
      ⟨1, "https://e.com", "abc", none, none, true, 5⟩ rfl rfl⟩

/-- The part of the C4 claim the code does satisfy: every successful update
leaves the url-cache key of the link deleted before returning. -/
theorem update_ok_deletes_cache (s : SysState) (code : String) (upd : URLUpdate)
    (now : Int) (u1 : URLRecord) (s' : SysState)
    (h : update_url s code upd now = .ok (u1, s')) :
    AListGet s'.cache.kv (generate_url_key code) = none := by
  obtain ⟨u, -, -, -, hkv, -⟩ := update_ok_shape s code upd now u1 s' h
  rw [hkv]
  exact AListGet_filter_self s.cache.kv (generate_url_key code)

/-- Counterexample to claim C5 as stated: a link whose `expires_at` equals
the current time is NOT treated as expired -- the redirect succeeds, because
line 127 compares with strict less-than. -/
theorem expiry_at_now_not_gone_cex :
    (get_original_url expiry_state "abc" "1.2.3.4" none 100).isOk = true := rfl

/-- Claim C5 as amended: with the link resolved from the store (empty cache
entry), active, and carrying an expiry, the redirect reports GONE-expired
exactly when the expiry is STRICTLY below the current time -- equality is not
expired -- and a naive timestamp is normalized to the same UTC value as an
aware one. -/
theorem expiry_comparison_strict (s : SysState) (code ip : String) (ua : Option String)
    (now : Int) (u : URLRecord) (t : Timestamp)
    (hdown : s.cache.down = false)
    (hkv : AListGet s.cache.kv (generate_url_key code) = none)
    (hu : lookup_by_code s.db.urls code = some u)
    (hact : u.is_active = true)
    (hexp : u.expires_at = some t) :
    (get_original_url s code ip ua now = .error Err.http410Expired
      ↔ normalize_utc t < now) ∧
    normalize_utc ⟨t.val, false⟩ = normalize_utc ⟨t.val, true⟩ := by
  refine ⟨?_, rfl⟩
  have hc : get_cached_url s.cache code = .ok none := by
    simp [get_cached_url, get_key, hdown, hkv]
  simp only [get_original_url, hc, hu]
  have heta : ({ s with
      cache := cache_url s.cache code ⟨u.original_url, u.is_active, u.expires_at⟩ } : SysState)
      = s := rfl
  rw [heta]
  unfold validate_and_track
  simp only [hact, if_true, hexp]
  have htc := track_click_eq_of_found s code ip ua u hu hdown
  by_cases hlt : normalize_utc t < now
  · simp [if_pos hlt, hlt]
  · simp only [if_neg hlt, htc]
    simp [hlt]

/-- Witness for C5 amended: the same link one second after its expiry is
reported GONE-expired. -/
theorem expiry_comparison_strict_witness :
    ((get_original_url expiry_state "abc" "1.2.3.4" none 101 = .error Err.http410Expired
      ↔ normalize_utc ⟨100, true⟩ < 101) ∧
     normalize_utc ⟨(100 : Int), false⟩ = normalize_utc ⟨100, true⟩) :=
  expiry_comparison_strict expiry_state "abc" "1.2.3.4" none 101
    ⟨1, "https://e.com", "abc", none, some ⟨100, true⟩, true, 0⟩ ⟨100, true⟩
    rfl rfl rfl rfl rfl

/-- Counterexample to claim C6 as stated: with the backend down, the failure
of the cache read is NOT caught at the Cache Service boundary -- it
propagates and the enclosing redirect fails instead of succeeding. -/
theorem cache_failure_propagates_cex :
    get_original_url down_state "abc" "1.2.3.4" none 5 = .error Err.cacheDown := rfl

/-- Claim C6 as amended: only the rate limiter catches backend failures
(fail-open allow); the Cache Service read path is unguarded, so with the
backend down the enclosing redirect fails with the propagated cache error;
`cache_url` alone cannot fail, because its write coroutine is never
awaited. -/
theorem cache_failure_handling_split (s : SysState) (code ip : String) (ua : Option String)
    (now : Int) (rl : RateLimiter) (rset : Finset Int) (e : LinkEntry)
    (hdown : s.cache.down = true) :
    get_original_url s code ip ua now = .error Err.cacheDown ∧
    (check_rate_limit rl now rset true).2 = true ∧
    cache_url s.cache code e = s.cache := by
  refine ⟨?_, rfl, rfl⟩
  simp [get_original_url, get_cached_url, get_key, hdown]

/-- Witness for C6 amended. -/
theorem cache_failure_handling_split_witness :
    down_state.cache.down = true ∧
    (get_original_url down_state "abc" "1.2.3.4" none 0 = .error Err.cacheDown ∧
     (check_rate_limit rate_limiter 0 ∅ true).2 = true ∧
     cache_url down_state.cache "abc" entry_ex = down_state.cache) :=
  ⟨rfl, cache_failure_handling_split down_state "abc" "1.2.3.4" none 0 rate_limiter ∅
      entry_ex rfl⟩

/-- Claim C7: a successful redirect from a reachable state resolves the row,
returns its original URL, appends exactly one Click row carrying the given ip
and user agent, bumps the durable clicks of that row by exactly one, and does
not invalidate (or otherwise touch) the url-cache keyspace. -/
theorem redirect_records_one_click (s : SysState) (code ip : String) (ua : Option String)
    (now : Int) (url : String) (s' : SysState) (u : URLRecord)
    (hreach : Reachable s)
    (hu : lookup_by_code s.db.urls code = some u)
    (hok : get_original_url s code ip ua now = .ok (url, s')) :
    url = u.original_url ∧
    s'.db.clicks = s.db.clicks ++ [⟨u.id, ip, ua⟩] ∧
    lookup_by_code s'.db.urls code = some { u with clicks := u.clicks + 1 } ∧
    s'.cache.kv = s.cache.kv := by
  obtain ⟨-, h2⟩ := reachable_inv s hreach
  obtain ⟨v, hv, -, hurl, hurls, hclicks, hkv⟩ :=
    get_original_url_ok_shape s code ip ua now url s' h2 hok
  have huv : v = u := Option.some.inj (hv.symm.trans hu)
  subst huv
  refine ⟨hurl, hclicks, ?_, hkv⟩
  rw [hurls, lookup_bump_clicks, hu]
  rfl

/-- Witness for C7: redirecting `promo1` in the reachable state `s1` yields
the clicked state with one Click row and clicks bumped from 0 to 1. -/
theorem redirect_records_one_click_witness :
    lookup_by_code s1.db.urls "promo1" = some promo_rec ∧
    get_original_url s1 "promo1" "9.9.9.9" (some "UA") 0 = .ok ("https://e.com", s1_clicked) ∧
    ("https://e.com" = promo_rec.original_url ∧
     s1_clicked.db.clicks = s1.db.clicks ++ [⟨promo_rec.id, "9.9.9.9", some "UA"⟩] ∧
     lookup_by_code s1_clicked.db.urls "promo1"
       = some { promo_rec with clicks := promo_rec.clicks + 1 } ∧
     s1_clicked.cache.kv = s1.cache.kv) :=
  ⟨rfl, rfl,
   redirect_records_one_click s1 "promo1" "9.9.9.9" (some "UA") 0 "https://e.com"
     s1_clicked promo_rec reachable_s1 rfl rfl⟩

/-- Counterexample to claim C8 as stated: a nonempty malformed payload under
`url:abc` makes `get_cached_url` raise the parse failure rather than treat it
as a miss. -/
theorem malformed_payload_raises_cex :
    get_cached_url malformed_cache "abc" = .error Err.parseError := rfl

/-- Claim C8 as amended: `get_cached_url` returns the deserialized entry on a
well-formed payload, absent on a miss, absent on an EMPTY payload (falsy
string), and raises a parse error on a nonempty malformed payload. -/
theorem get_cached_url_miss_and_parse (c : CacheState) (code : String) (e : LinkEntry)
    (str : String) (hdown : c.down = false) (hstr : str ≠ "") :
    (AListGet c.kv (generate_url_key code) = none → get_cached_url c code = .ok none) ∧
    (AListGet c.kv (generate_url_key code) = some (.wellFormed e) →
      get_cached_url c code = .ok (some e)) ∧
    (AListGet c.kv (generate_url_key code) = some (.malformed "") →
      get_cached_url c code = .ok none) ∧
    (AListGet c.kv (generate_url_key code) = some (.malformed str) →
      get_cached_url c code = .error Err.parseError) := by
  refine ⟨fun h => ?_, fun h => ?_, fun h => ?_, fun h => ?_⟩ <;>
    simp [get_cached_url, get_key, hdown, h, CacheVal.truthy, jsonLoads, hstr]

/-- Witness for C8 amended: reading back a well-formed payload. -/
theorem get_cached_url_miss_and_parse_witness :
    wf_cache.down = false ∧ ("x" : String) ≠ "" ∧
    get_cached_url wf_cache "ok" = .ok (some entry_ex) :=
  ⟨rfl, by decide,
   (get_cached_url_miss_and_parse wf_cache "ok" entry_ex "x" rfl (by decide)).2.1 rfl⟩

/-- Counterexample to claim C9 as stated: at T = 3600 with W = 3600, a member
with score exactly T - W = 0 is REMOVED by the trim (Redis score ranges are
inclusive), so it does not remain in the set after the check. -/
theorem trim_removes_boundary_score_cex :
    (0 : Int) ∉ (check_rate_limit rate_limiter 3600 {0} false).1 := by decide

/-- Claim C9 as amended: the trim step removes exactly the members with score
in the INCLUSIVE range [0, T - W]; in particular a member with score exactly
T - W is removed and no longer counted. -/
theorem trim_removes_inclusive_range (s : Finset Int) (now window x : Int) :
    x ∈ zremrangebyscore s 0 (now - window) ↔ x ∈ s ∧ ¬ (0 ≤ x ∧ x ≤ now - window) := by
  simp [zremrangebyscore]

/-- Claim C10: in every reachable state all rows are active -- links are
created active, updates accept only custom_alias and expiration_days, and no
public operation clears the flag -- and therefore no redirect can report the
GONE-deactivated outcome. -/
theorem links_never_deactivated (s : SysState) (code ip : String) (ua : Option String)
    (now : Int) (h : Reachable s) :
    (∀ u ∈ s.db.urls, u.is_active = true) ∧
    get_original_url s code ip ua now ≠ .error Err.http410Deactivated := by
  obtain ⟨h1, h2⟩ := reachable_inv s h
  refine ⟨h1, fun hcon => ?_⟩
  cases hdown : s.cache.down with
  | true => simp [get_original_url, get_cached_url, get_key, hdown] at hcon
  | false =>
    have hc : get_cached_url s.cache code = .ok none := by
      simp [get_cached_url, get_key, hdown, h2, AListGet]
    simp only [get_original_url, hc] at hcon
    cases hl : lookup_by_code s.db.urls code with
    | none => simp only [hl] at hcon; simp at hcon
    | some u =>
      simp only [hl] at hcon
      have hact : u.is_active = true := h1 u (lookup_by_code_mem s.db.urls code u hl)
      have heta : ({ s with
          cache := cache_url s.cache code ⟨u.original_url, u.is_active, u.expires_at⟩ } : SysState)
          = s := rfl
      rw [heta] at hcon
      unfold validate_and_track at hcon
      simp only [hact, if_true] at hcon
      have htc := track_click_eq_of_found s code ip ua u hl hdown
      cases hexp : u.expires_at with
      | none => simp only [hexp, htc] at hcon; simp at hcon
      | some t =>
        simp only [hexp] at hcon
        by_cases hlt : normalize_utc t < now
        · rw [if_pos hlt] at hcon; simp at hcon
        · rw [if_neg hlt] at hcon
          simp only [htc] at hcon
          simp at hcon

/-- Witness for C10: the reachable state `s1` and a concrete redirect on it
that cannot be GONE-deactivated. -/
theorem links_never_deactivated_witness :
    Reachable s1 ∧
    get_original_url s1 "promo1" "9.9.9.9" (some "UA") 0 ≠ .error Err.http410Deactivated :=
  ⟨reachable_s1,
   (links_never_deactivated s1 "promo1" "9.9.9.9" (some "UA") 0 reachable_s1).2⟩

end UrlShortener
